import Mathlib

/-!
# The shared random number round of the calculator contract

A shallow embedding of `generateRndNo`, `compute` and `handleCommand` of
`src/smart-contract/contract.js`.

* Numbers.  A JavaScript number is `NaN` or a finite value; finite values are
  exact rationals (the round only compares them, and the candidate formula is
  studied over exact arithmetic).  The two infinities are left out.
* Builtins.  `JSON.parse` and `Number` are not part of the repository: a
  delivered message is represented by what they return on it (`Parsed`).
  The text that `JSON.stringify` produces for the broadcast is kept as the
  members it denotes, a `NaN` value being written `null`.
* Asynchrony.  The closure variables of one round (`completed`, `receivedNos`,
  the timer, the promise) form the record `Round`; the two callbacks are
  functions on it, and a schedule is the list of callbacks in the order in
  which the single thread runs them.
-/

namespace Calc

/-! ## Numbers -/

/-- A JavaScript number: `NaN` or a finite value. -/
inductive JsNumber
  | nan
  | fin (q : ℚ)
deriving DecidableEq

namespace JsNumber

/-- The operator `a > b`: false as soon as one side is `NaN`. -/
def gt : JsNumber → JsNumber → Bool
  | fin a, fin b => decide (b < a)
  | _, _ => false

/-- The operator `a < b`: false as soon as one side is `NaN`. -/
def lt : JsNumber → JsNumber → Bool
  | fin a, fin b => decide (a < b)
  | _, _ => false

/-- The operator `a + b`. -/
def add : JsNumber → JsNumber → JsNumber
  | fin a, fin b => fin (a + b)
  | _, _ => nan

/-- The operator `a - b`. -/
def sub : JsNumber → JsNumber → JsNumber
  | fin a, fin b => fin (a - b)
  | _, _ => nan

/-- The operator `a * b`. -/
def mul : JsNumber → JsNumber → JsNumber
  | fin a, fin b => fin (a * b)
  | _, _ => nan

/-- The builtin `Math.floor`. -/
def floor : JsNumber → JsNumber
  | fin a => fin (⌊a⌋ : ℤ)
  | nan => nan

end JsNumber

/-! ## The aggregator -/

/-- The function `getMax` (contract.js, lines 79-88) on the buffer `receivedNos`:
`max` starts at `0` and is replaced by every element that is `> max`. -/
def getMax (receivedNos : List JsNumber) : JsNumber :=
  receivedNos.foldl (fun max randomNumber => if randomNumber.gt max then randomNumber else max)
    (JsNumber.fin 0)

/-! ## Messages -/

/-- What `JSON.parse(msg.toString())`, `obj.key` and `Number(obj.value)` yield
on one delivered message. -/
inductive Parsed
  /-- The text is not valid JSON: `JSON.parse` throws a `SyntaxError`. -/
  | syntaxError
  /-- The text is the JSON value `null`: reading `obj.key` throws a `TypeError`. -/
  | null
  /-- The text is a JSON boolean, number, string or array: `obj.key` is `undefined`. -/
  | other
  /-- The text is a JSON object: `key` is `obj.key` when that is a string
  (`none` when the member is absent or not a string), `value` is
  `Number(obj.value)`. -/
  | object (key : Option String) (value : JsNumber)
deriving DecidableEq

/-- Errors thrown by the embedded code. -/
inductive JsError
  | syntaxError
  | typeError
  /-- A rejected promise that was awaited: the rejection reason is thrown. -/
  | rejection (reason : String)
deriving DecidableEq

/-- The two ways the promise of a round is settled. -/
inductive Outcome
  | resolved (value : JsNumber)
  | rejected (reason : String)
deriving DecidableEq

/-! ## One round -/

/-- The closure state of one call of `generateRndNo`. -/
structure Round where
  /-- The constant `unlSize = hpUNL.count()`. -/
  unlSize : Nat
  /-- The flag `completed`. -/
  completed : Bool
  /-- The array `receivedNos`, in push order. -/
  receivedNos : List JsNumber
  /-- Whether the timer of `setTimeout` is still pending (neither fired nor cleared). -/
  timerPending : Bool
  /-- The calls of `resolve` and `reject` made so far, in order. -/
  calls : List Outcome
deriving DecidableEq

namespace Round

/-- The state right after the promise executor has run. -/
def init (unlSize : Nat) : Round :=
  { unlSize := unlSize, completed := false, receivedNos := [], timerPending := true, calls := [] }

/-- A call `resolve(v)`. -/
def resolve (s : Round) (v : JsNumber) : Round :=
  { s with calls := s.calls ++ [Outcome.resolved v] }

/-- A call `reject(reason)`. -/
def reject (s : Round) (reason : String) : Round :=
  { s with calls := s.calls ++ [Outcome.rejected reason] }

/-- The state of the promise: the first call of `resolve` or `reject` settles it. -/
def outcome (s : Round) : Option Outcome := s.calls.head?

end Round

/-- The rejection reason used by the deadline callback. -/
def quorumError : String := "Error generating the random number."

/-- The callback of `setTimeout` (contract.js, lines 90-98). -/
def onTimeout (s : Round) : Round :=
  let s1 := { s with timerPending := false, completed := true }
  if s1.receivedNos.length < s1.unlSize then
    s1.reject quorumError
  else
    s1.resolve (getMax s1.receivedNos)

/-- The callback of `hpUNL.onMessage` (contract.js, lines 100-113).  The
argument `node` is the origin peer; the source never reads it. -/
def onMessage (s : Round) (_node : String) (msg : Parsed) : Except JsError Round :=
  if !s.completed then
    match msg with
    | Parsed.syntaxError => Except.error JsError.syntaxError
    | Parsed.null => Except.error JsError.typeError
    | Parsed.other =>
      if s.receivedNos.length = s.unlSize then
        Except.ok (Round.resolve { s with timerPending := false, completed := true }
          (getMax s.receivedNos))
      else Except.ok s
    | Parsed.object key value =>
      let s1 := if key = some "randomNumber" then
          { s with receivedNos := s.receivedNos ++ [value] }
        else s
      if s1.receivedNos.length = s1.unlSize then
        Except.ok (Round.resolve { s1 with timerPending := false, completed := true }
          (getMax s1.receivedNos))
      else Except.ok s1
  else Except.ok s

/-- The callbacks the event loop can run during a round. -/
inductive Event
  /-- A message of peer `node` is delivered. -/
  | message (node : String) (msg : Parsed)
  /-- The deadline is reached. -/
  | timeout
deriving DecidableEq

/-- One turn of the event loop.  A pending timer runs its callback; a timer
that has fired or was cleared runs nothing.  A message callback that throws
has not modified the state. -/
def step (s : Round) : Event → Round
  | Event.message node msg =>
    match onMessage s node msg with
    | Except.ok s1 => s1
    | Except.error _ => s
  | Event.timeout => if s.timerPending then onTimeout s else s

/-- The state after a schedule. -/
def run (s : Round) (events : List Event) : Round := events.foldl step s

/-- A message tagged for the protocol carrying the number `v`. -/
def tagged (node : String) (v : JsNumber) : Event :=
  Event.message node (Parsed.object (some "randomNumber") v)

/-! ## The call `generateRndNo` -/

/-- What one call reads from its host. -/
structure Host where
  /-- The value of `hpUNL.count()`. -/
  unlSize : Nat
  /-- The value of `hpconfig.consensus.roundtime`, in milliseconds. -/
  roundtime : Nat
  /-- The value returned by `Math.random()`. -/
  random : ℚ
  /-- The callbacks the event loop runs while the call is suspended, in order.
  What the deliveries carry is up to the peers: no link with the bounds of
  this call is assumed. -/
  events : List Event
  /-- Whether `fs.writeFile` succeeds. -/
  writeOk : Bool

/-- A number member as `JSON.stringify` writes it: the text of a finite
number, or `null` for `NaN`. -/
inductive JsonNumber
  | null
  | number (q : ℚ)
deriving DecidableEq

/-- The text that `JSON.stringify` produces for an object with the members
`key` and `value`, kept symbolic: the members that the text denotes. -/
structure NplMessage where
  key : String
  value : JsonNumber
deriving DecidableEq

/-- The builtin `JSON.stringify` on a number: `NaN` is written `null`. -/
def stringifyNumber : JsNumber → JsonNumber
  | JsNumber.nan => JsonNumber.null
  | JsNumber.fin q => JsonNumber.number q

/-- The builtin `JSON.stringify` on the object `{ key: key, value: value }`
of line 118. -/
def stringify (key : String) (value : JsNumber) : NplMessage :=
  { key := key, value := stringifyNumber value }

/-- The candidate of line 117: `Math.floor(Math.random() * (max - min + 1)) + min`. -/
def candidate (random : ℚ) (min max : JsNumber) : JsNumber :=
  JsNumber.add
    (JsNumber.floor (JsNumber.mul (JsNumber.fin random)
      (JsNumber.add (JsNumber.sub max min) (JsNumber.fin 1))))
    min

/-- The same formula on finite bounds. -/
def sample (random low high : ℚ) : ℚ := (⌊random * (high - low + 1)⌋ : ℤ) + low

/-- What is observed of one call of `generateRndNo`. -/
structure RndCall where
  /-- The delay given to `setTimeout`: `Math.ceil(roundtime / 2)`. -/
  timeoutMs : Nat
  /-- The arguments of the calls of `sendViaNPL`, in order. -/
  sent : List NplMessage
  /-- The outcome of `return await promise`: `none` while the promise is
  pending, a value when it resolved, a thrown error when it was rejected. -/
  result : Option (Except JsError JsNumber)

/-- What awaiting the promise of a round gives. -/
def awaitRound (s : Round) : Option (Except JsError JsNumber) :=
  match s.outcome with
  | none => none
  | some (Outcome.resolved v) => some (Except.ok v)
  | some (Outcome.rejected reason) => some (Except.error (JsError.rejection reason))

/-- The method `generateRndNo(min, max)` (contract.js, lines 65-121). -/
def generateRndNo (h : Host) (min max : JsNumber) : RndCall :=
  { timeoutMs := (h.roundtime + 1) / 2
    sent := [stringify "randomNumber" (candidate h.random min max)]
    result := awaitRound (run (Round.init h.unlSize) h.events) }

/-! ## The callers `compute` and `handleCommand` -/

/-- The text held in `#banner`, kept symbolic: the template literals are not
expanded to characters. -/
inductive Banner
  /-- The initial value, the empty string. -/
  | empty
  /-- The banner of `ADD`, `SUB`, `MUL`, `DIV` or `POW` on two operands. -/
  | arith (operator : String) (operand1 operand2 : JsNumber)
  /-- The banner of `RAN`: the text "Random Number = " followed by the computation. -/
  | random (computation : JsNumber)
deriving DecidableEq

/-- An object sent to the user. -/
inductive Output
  /-- The object with `type` "data_result" and member `data`. -/
  | dataResult (data : Banner)
  /-- The object with `type` "error" and member `error`. -/
  | error (error : String)
  /-- The value `undefined`. -/
  | undefined
deriving DecidableEq

/-- The member `expression` of a command, its operands already through `parseFloat`. -/
structure Expression where
  operator : Option String
  operand1 : JsNumber
  operand2 : JsNumber

/-- A command received from a user. -/
structure Command where
  type : String
  expression : Expression

/-- The method `store` (lines 20-28). -/
def store (h : Host) (banner : Banner) : Output :=
  if h.writeOk then Output.dataResult banner
  else Output.error "Error occurred while recording."

/-- The method `compute` (lines 129-169): `none` while it is suspended, a
thrown error, or the returned object. -/
def compute (h : Host) (banner : Banner) (expression : Expression) :
    Option (Except JsError Output) :=
  match expression.operator with
  | some op =>
    if op = "ADD" ∨ op = "SUB" ∨ op = "MUL" ∨ op = "DIV" ∨ op = "POW" then
      some (Except.ok (store h (Banner.arith op expression.operand1 expression.operand2)))
    else if op = "RAN" then
      match (generateRndNo h expression.operand1 expression.operand2).result with
      | none => none
      | some (Except.error err) => some (Except.error err)
      | some (Except.ok v) => some (Except.ok (store h (Banner.random v)))
    else some (Except.ok (store h banner))
  | none => some (Except.ok (store h banner))

/-- The method `replay` (lines 35-44) on the content of the log file of the user. -/
def replay (file : Option Banner) : Output :=
  match file with
  | some output => Output.dataResult output
  | none => Output.error "Nothing was found to REPLAY."

/-- The method `handleCommand` (lines 178-206): the objects passed to
`sendOutput`, `none` while suspended, or the error thrown out of it. -/
def handleCommand (h : Host) (banner : Banner) (file : Option Banner)
    (command : Command) (isReadOnly : Bool) : Option (Except JsError (List Output)) :=
  if isReadOnly ∧ command.type ≠ "REPLAY" then
    some (Except.ok [Output.error
      (if command.type ∈ ["COMP", "CLR", "REPLAY"] then
        "Command is not supported in read-only mode."
      else "Invalid input provided.")])
  else if command.type = "REPLAY" then
    some (Except.ok [replay file])
  else if command.type = "COMP" then
    match compute h banner command.expression with
    | none => none
    | some (Except.error err) => some (Except.error err)
    | some (Except.ok response) => some (Except.ok [response])
  else if command.type = "CLR" then
    some (Except.ok [Output.undefined])
  else
    some (Except.ok [Output.error "Invalid input provided."])

/-! ## Vocabulary of the statements -/

/-- The number a delivered message contributes: `Number(obj.value)` when the
message is an object tagged "randomNumber", nothing otherwise. -/
def Event.contribution : Event → Option JsNumber
  | Event.message _ (Parsed.object key value) =>
    if key = some "randomNumber" then some value else none
  | _ => none

/-- The event is a message tagged for the protocol. -/
def Event.isTagged (e : Event) : Bool := e.contribution.isSome

/-- The event is a message that parses to a value other than `null` and is
not tagged "randomNumber". -/
def Event.isUntagged : Event → Bool
  | Event.message _ Parsed.other => true
  | Event.message _ (Parsed.object key _) => decide (key ≠ some "randomNumber")
  | _ => false

/-- The event is a delivery (not the deadline). -/
def Event.isMessage : Event → Bool
  | Event.message _ _ => true
  | Event.timeout => false

/-- The numbers contributed by a schedule, in delivery order. -/
def contributions (events : List Event) : List JsNumber :=
  events.filterMap Event.contribution

/-- The state `s` with the numbers `vs` pushed on the buffer. -/
def Round.pushAll (s : Round) (vs : List JsNumber) : Round :=
  { s with receivedNos := s.receivedNos ++ vs }

/-- The state `s` after the completion branch of a callback: the timer is
cleared or spent, the flag is set. -/
def Round.finish (s : Round) : Round :=
  { s with timerPending := false, completed := true }

/-- The invariant of the states of a round: the buffer of a roster of at
least one peer never exceeds the roster, and stays below it until completion;
an uncompleted round has its timer pending and no outcome; a completed round
has no pending timer and exactly one call of `resolve` or `reject`. -/
def Inv (s : Round) : Prop :=
  (1 ≤ s.unlSize → s.receivedNos.length ≤ s.unlSize) ∧
  (s.completed = false →
    s.timerPending = true ∧ s.calls = [] ∧
      (1 ≤ s.unlSize → s.receivedNos.length < s.unlSize)) ∧
  (s.completed = true → s.timerPending = false ∧ s.calls.length = 1)

/-- The end-to-end scenario of a failed quorum: roster 4, round time 2000,
the contributions 12, 47 and 3, then the deadline. -/
def scenarioHost : Host :=
  { unlSize := 4, roundtime := 2000, random := 1 / 2,
    events := [tagged "a" (JsNumber.fin 12), tagged "b" (JsNumber.fin 47),
      tagged "c" (JsNumber.fin 3), Event.timeout],
    writeOk := true }

/-- The command `RAN min max` as the client frames it. -/
def ranCommand (min max : JsNumber) : Command :=
  { type := "COMP", expression := { operator := some "RAN", operand1 := min, operand2 := max } }

/-! ## The aggregator: lemmas -/

theorem foldl_getMax_fin (vs : List ℚ) (a : ℚ) :
    (vs.map JsNumber.fin).foldl
      (fun max randomNumber => if randomNumber.gt max then randomNumber else max)
      (JsNumber.fin a) = JsNumber.fin (vs.foldl max a) := by
  induction vs generalizing a with
  | nil => rfl
  | cons v vs ih =>
    have hgt : (JsNumber.fin v).gt (JsNumber.fin a) = decide (a < v) := rfl
    simp only [List.map_cons, List.foldl_cons, hgt]
    by_cases h : a < v
    · simp only [h, decide_True, if_true]
      rw [ih, max_eq_right (le_of_lt h)]
    · simp only [h, decide_False, if_false, Bool.false_eq_true]
      rw [ih, max_eq_left (not_lt.mp h)]

/-- On finite numbers `getMax` is the maximum of `0` and the elements. -/
theorem getMax_fin (vs : List ℚ) :
    getMax (vs.map JsNumber.fin) = JsNumber.fin (vs.foldl max 0) :=
  foldl_getMax_fin vs 0

theorem foldl_max_ge (vs : List ℚ) (a : ℚ) :
    a ≤ vs.foldl max a ∧ ∀ v ∈ vs, v ≤ vs.foldl max a := by
  induction vs generalizing a with
  | nil => simp
  | cons w vs ih =>
    obtain ⟨h1, h2⟩ := ih (max a w)
    refine ⟨le_trans (le_max_left a w) h1, ?_⟩
    intro v hv
    rcases List.mem_cons.mp hv with rfl | hv
    · exact le_trans (le_max_right a v) h1
    · exact h2 v hv

theorem foldl_max_mem (vs : List ℚ) (a : ℚ) :
    vs.foldl max a = a ∨ vs.foldl max a ∈ vs := by
  induction vs generalizing a with
  | nil => simp
  | cons w vs ih =>
    rcases ih (max a w) with h | h
    · rcases max_choice a w with h3 | h3
      · left; simp only [List.foldl_cons]; rw [h, h3]
      · right; simp only [List.foldl_cons]; rw [h, h3]; exact List.mem_cons_self _ _
    · right; exact List.mem_cons_of_mem _ h

/-- As soon as one received number is not negative, `getMax` returns an
element of the buffer that bounds every element: the maximum. -/
theorem getMax_is_maximum_of_nonneg (vs : List ℚ) (h : ∃ v ∈ vs, 0 ≤ v) :
    ∃ m ∈ vs, getMax (vs.map JsNumber.fin) = JsNumber.fin m ∧ ∀ v ∈ vs, v ≤ m := by
  obtain ⟨v, hv, h0⟩ := h
  have hge := foldl_max_ge vs 0
  rcases foldl_max_mem vs 0 with hm | hm
  · refine ⟨v, hv, ?_, ?_⟩
    · rw [getMax_fin, hm]
      have := hge.2 v hv
      rw [hm] at this
      rw [le_antisymm this h0]
    · intro w hw
      have h1 := hge.2 w hw
      have h2 := hge.2 v hv
      rw [hm] at h1 h2
      rw [le_antisymm h2 h0]; exact h1
  · exact ⟨_, hm, getMax_fin vs, hge.2⟩

/-! ## The callbacks: lemmas -/

theorem onMessage_completed (s : Round) (node : String) (msg : Parsed)
    (h : s.completed = true) : onMessage s node msg = Except.ok s := by
  simp [onMessage, h]

theorem step_of_completed (s : Round) (e : Event) (hc : s.completed = true)
    (ht : s.timerPending = false) : step s e = s := by
  cases e with
  | message node msg => simp [step, onMessage_completed s node msg hc]
  | timeout => simp [step, ht]

theorem run_of_completed (s : Round) (es : List Event) (hc : s.completed = true)
    (ht : s.timerPending = false) : run s es = s := by
  induction es with
  | nil => rfl
  | cons e es ih =>
    show run (step s e) es = s
    rw [step_of_completed s e hc ht]; exact ih

theorem run_append (s : Round) (es fs : List Event) :
    run s (es ++ fs) = run (run s es) fs := by
  simp [run, List.foldl_append]

theorem run_cons (s : Round) (e : Event) (es : List Event) :
    run s (e :: es) = run (step s e) es := rfl

theorem pushAll_nil (s : Round) : s.pushAll [] = s := by
  simp [Round.pushAll]

theorem pushAll_pushAll (s : Round) (vs ws : List JsNumber) :
    (s.pushAll vs).pushAll ws = s.pushAll (vs ++ ws) := by
  simp [Round.pushAll]

/-- A delivery that leaves the buffer below the roster size only pushes its
contribution, if it has one. -/
theorem step_message_below (s : Round) (e : Event) (hm : e.isMessage = true)
    (hc : s.completed = false)
    (hlt : s.receivedNos.length + e.contribution.toList.length < s.unlSize) :
    step s e = s.pushAll e.contribution.toList := by
  cases e with
  | timeout => simp [Event.isMessage] at hm
  | message node msg =>
    cases msg with
    | syntaxError => simp [step, onMessage, hc, Event.contribution, pushAll_nil]
    | null => simp [step, onMessage, hc, Event.contribution, pushAll_nil]
    | other =>
      have hne : s.receivedNos.length ≠ s.unlSize := by
        simp [Event.contribution] at hlt; omega
      simp [step, onMessage, hc, Event.contribution, pushAll_nil, hne]
    | object key value =>
      by_cases hk : key = some "randomNumber"
      · have hne : s.receivedNos.length + 1 ≠ s.unlSize := by
          simp [Event.contribution, hk] at hlt; omega
        simp [step, onMessage, hc, Event.contribution, hk, hne, Round.pushAll]
      · have hne : s.receivedNos.length ≠ s.unlSize := by
          simp [Event.contribution, hk] at hlt; omega
        simp [step, onMessage, hc, Event.contribution, hk, hne, pushAll_nil]

/-- Deliveries that together leave the buffer below the roster size push
their contributions in delivery order and change nothing else. -/
theorem run_messages_below (es : List Event) (s : Round)
    (hm : ∀ e ∈ es, e.isMessage = true) (hc : s.completed = false)
    (hlt : s.receivedNos.length + (contributions es).length < s.unlSize) :
    run s es = s.pushAll (contributions es) := by
  induction es generalizing s with
  | nil => simp [run, contributions, pushAll_nil]
  | cons e es ih =>
    have hsplit : contributions (e :: es) = e.contribution.toList ++ contributions es := by
      cases h : e.contribution <;> simp [contributions, List.filterMap_cons, h]
    rw [hsplit, List.length_append] at hlt
    rw [run_cons, step_message_below s e (hm e (List.mem_cons_self _ _)) hc (by omega)]
    rw [ih (s.pushAll e.contribution.toList) (fun x hx => hm x (List.mem_cons_of_mem _ hx))
      (by simp [Round.pushAll, hc]) (by simp [Round.pushAll]; omega)]
    rw [pushAll_pushAll, hsplit]

/-- The tagged delivery that brings the buffer to the roster size completes
the round: the timer is cleared, the flag is set and `resolve` is called with
`getMax` of the buffer. -/
theorem step_tagged_complete (s : Round) (node : String) (v : JsNumber)
    (hc : s.completed = false) (heq : s.receivedNos.length + 1 = s.unlSize) :
    step s (tagged node v) =
      Round.resolve (Round.finish (s.pushAll [v])) (getMax (s.receivedNos ++ [v])) := by
  simp [step, tagged, onMessage, hc, heq, Round.pushAll, Round.finish, Round.resolve]

theorem contributions_tagged (cs : List (String × JsNumber)) :
    contributions (cs.map (fun c => tagged c.1 c.2)) = cs.map Prod.snd := by
  induction cs with
  | nil => rfl
  | cons c cs ih =>
    simp only [List.map_cons]
    rw [← ih]
    simp [contributions, tagged, Event.contribution]

theorem isMessage_tagged (cs : List (String × JsNumber)) :
    ∀ e ∈ cs.map (fun c => tagged c.1 c.2), e.isMessage = true := by
  intro e he
  obtain ⟨c, _, rfl⟩ := List.mem_map.mp he
  rfl

/-! ## The invariant -/

theorem inv_init (n : Nat) : Inv (Round.init n) := by
  refine ⟨?_, ?_, ?_⟩ <;> simp [Round.init]
  omega

theorem inv_onTimeout (s : Round) (h : Inv s) (hp : s.timerPending = true) :
    Inv (onTimeout s) := by
  obtain ⟨h1, h2, h3⟩ := h
  have hc : s.completed = false := by
    cases hcc : s.completed with
    | false => rfl
    | true => have := (h3 hcc).1; rw [hp] at this; cases this
  obtain ⟨_, hcalls, _⟩ := h2 hc
  unfold onTimeout
  simp only []
  split
  · refine ⟨?_, ?_, ?_⟩ <;> simp [Round.reject, hcalls]
    exact h1
  · refine ⟨?_, ?_, ?_⟩ <;> simp [Round.resolve, hcalls]
    exact h1

theorem inv_step (s : Round) (e : Event) (h : Inv s) : Inv (step s e) := by
  cases hcc : s.completed with
  | true => rw [step_of_completed s e hcc (h.2.2 hcc).1]; exact h
  | false =>
    obtain ⟨hp, hcalls, hlt⟩ := h.2.1 hcc
    cases e with
    | timeout => simp only [step, hp, if_true]; exact inv_onTimeout s h hp
    | message node msg =>
      cases msg with
      | syntaxError => simpa [step, onMessage, hcc] using h
      | null => simpa [step, onMessage, hcc] using h
      | other =>
        by_cases hn : s.receivedNos.length = s.unlSize
        · simp only [step, onMessage, hcc, hn]
          refine ⟨?_, ?_, ?_⟩ <;> simp [Round.resolve, hcalls, hn]
        · simpa [step, onMessage, hcc, hn] using h
      | object key value =>
        by_cases hk : key = some "randomNumber"
        · by_cases hn : s.receivedNos.length + 1 = s.unlSize
          · simp only [step, onMessage, hcc, hk]
            refine ⟨?_, ?_, ?_⟩ <;> simp [Round.resolve, hcalls, hn]
          · simp only [step, onMessage, hcc, hk]
            refine ⟨?_, ?_, ?_⟩ <;> simp [hn, hcc, hp, hcalls] <;> intro h1 <;>
              have := hlt h1 <;> omega
        · by_cases hn : s.receivedNos.length = s.unlSize
          · simp only [step, onMessage, hcc, hk]
            refine ⟨?_, ?_, ?_⟩ <;> simp [Round.resolve, hcalls, hn]
          · simpa [step, onMessage, hcc, hk, hn] using h

theorem inv_run (s : Round) (es : List Event) (h : Inv s) : Inv (run s es) := by
  induction es generalizing s with
  | nil => exact h
  | cons e es ih => exact ih (step s e) (inv_step s e h)

theorem step_unlSize (s : Round) (e : Event) : (step s e).unlSize = s.unlSize := by
  cases e with
  | timeout =>
    simp only [step, onTimeout]
    split
    · split <;> rfl
    · rfl
  | message node msg =>
    cases hcc : s.completed with
    | true => simp [step, onMessage, hcc]
    | false =>
      cases msg with
      | syntaxError => simp [step, onMessage, hcc]
      | null => simp [step, onMessage, hcc]
      | other =>
        by_cases hn : s.receivedNos.length = s.unlSize <;>
          simp [step, onMessage, hcc, hn, Round.resolve]
      | object key value =>
        by_cases hk : key = some "randomNumber"
        · by_cases hn : s.receivedNos.length + 1 = s.unlSize <;>
            simp [step, onMessage, hcc, hk, hn, Round.resolve]
        · by_cases hn : s.receivedNos.length = s.unlSize <;>
            simp [step, onMessage, hcc, hk, hn, Round.resolve]

theorem run_unlSize (s : Round) (es : List Event) : (run s es).unlSize = s.unlSize := by
  induction es generalizing s with
  | nil => rfl
  | cons e es ih => rw [run_cons, ih, step_unlSize]

/-! ## Early completion -/

/-- Early completion, as the code computes it: when tagged payloads of any
peers bring the buffer to the roster size, the last delivery sets the flag,
clears the timer and resolves the promise, once, with `getMax` of the
delivered numbers; no later callback changes the state. -/
theorem early_completion_getMax (n : Nat) (cs : List (String × JsNumber)) (later : List Event)
    (hn : 1 ≤ n) (hlen : cs.length = n) :
    run (Round.init n) (cs.map (fun c => tagged c.1 c.2) ++ later) =
      { unlSize := n, completed := true, receivedNos := cs.map Prod.snd, timerPending := false,
        calls := [Outcome.resolved (getMax (cs.map Prod.snd))] } := by
  obtain ⟨front, c, rfl⟩ : ∃ front c, cs = front ++ [c] :=
    ⟨cs.dropLast, cs.getLast (by intro h; subst h; simp at hlen; omega),
      (List.dropLast_append_getLast _).symm⟩
  simp only [List.length_append, List.length_singleton] at hlen
  have hfront : run (Round.init n) (front.map (fun c => tagged c.1 c.2)) =
      (Round.init n).pushAll (front.map Prod.snd) := by
    rw [run_messages_below _ _ (isMessage_tagged front) rfl
      (by simp [contributions_tagged, Round.init]; omega), contributions_tagged]
  rw [List.map_append, List.append_assoc, run_append, hfront, List.map_singleton,
    List.singleton_append, run_cons,
    step_tagged_complete _ _ _ rfl (by simp [Round.pushAll, Round.init]; omega)]
  rw [run_of_completed _ _ rfl rfl]
  simp [Round.resolve, Round.finish, Round.pushAll, Round.init]

/-- The examples of the aggregator given for single, mixed and repeated values. -/
theorem getMax_examples :
    getMax [JsNumber.fin 5] = JsNumber.fin 5 ∧
      getMax [JsNumber.fin 3, JsNumber.fin 9, JsNumber.fin 1] = JsNumber.fin 9 ∧
      getMax [JsNumber.fin 7, JsNumber.fin 7] = JsNumber.fin 7 := by
  decide

/-! ## The claims -/

/-- C1, at the failing input: on the received numbers -3 and -1, all negative,
`getMax` returns 0, which is not the maximum -1 and not even an element of
the collection. -/
theorem getMax_all_negative :
    getMax [JsNumber.fin (-3), JsNumber.fin (-1)] = JsNumber.fin 0 ∧
      getMax [JsNumber.fin (-3), JsNumber.fin (-1)] ≠ JsNumber.fin (-1) ∧
      JsNumber.fin 0 ∉ [JsNumber.fin (-3), JsNumber.fin (-1)] := by
  decide

/-- C2, at the failing input: with a roster of 2 and the contributions -3 and
-1 delivered before the deadline, the round completes at the second delivery
and the timer is cleared, but the promise is resolved with 0 and not with the
maximum -1 of the delivered values. -/
theorem early_completion_all_negative :
    run (Round.init 2) [tagged "a" (JsNumber.fin (-3)), tagged "b" (JsNumber.fin (-1))] =
      { unlSize := 2, completed := true,
        receivedNos := [JsNumber.fin (-3), JsNumber.fin (-1)], timerPending := false,
        calls := [Outcome.resolved (JsNumber.fin 0)] } := by
  decide

/-- C3: with a roster of `n` and fewer than `n` tagged contributions delivered
before the deadline, the deadline callback rejects the promise (quorum
failure), once; the buffer holds the delivered numbers; and whatever is
delivered or fires afterwards leaves the whole state, so the outcome and the
buffer, unchanged, the message callback returning without an error. -/
theorem quorum_failure_at_deadline (n : Nat) (cs : List (String × JsNumber))
    (later : List Event) (hlt : cs.length < n) :
    run (Round.init n) (cs.map (fun c => tagged c.1 c.2) ++ [Event.timeout]) =
        { unlSize := n, completed := true, receivedNos := cs.map Prod.snd,
          timerPending := false, calls := [Outcome.rejected quorumError] } ∧
      (run (Round.init n) (cs.map (fun c => tagged c.1 c.2) ++ [Event.timeout])).outcome =
        some (Outcome.rejected quorumError) ∧
      run (Round.init n) ((cs.map (fun c => tagged c.1 c.2) ++ [Event.timeout]) ++ later) =
        run (Round.init n) (cs.map (fun c => tagged c.1 c.2) ++ [Event.timeout]) ∧
      ∀ node msg,
        onMessage (run (Round.init n) (cs.map (fun c => tagged c.1 c.2) ++ [Event.timeout]))
            node msg =
          Except.ok (run (Round.init n) (cs.map (fun c => tagged c.1 c.2) ++ [Event.timeout])) := by
  have hrun : run (Round.init n) (cs.map (fun c => tagged c.1 c.2) ++ [Event.timeout]) =
      { unlSize := n, completed := true, receivedNos := cs.map Prod.snd,
        timerPending := false, calls := [Outcome.rejected quorumError] } := by
    rw [run_append, run_messages_below _ _ (isMessage_tagged cs) rfl
      (by simp [contributions_tagged, Round.init]; exact hlt), contributions_tagged]
    simp [run, step, onTimeout, Round.pushAll, Round.init, Round.reject, hlt]
  refine ⟨hrun, ?_, ?_, ?_⟩
  · rw [hrun]; rfl
  · rw [run_append, hrun]; exact run_of_completed _ _ rfl rfl
  · intro node msg
    rw [hrun]; exact onMessage_completed _ _ _ rfl

/-- C3, witness: roster 4, contributions 12, 47, 3, then the deadline. -/
theorem quorum_failure_at_deadline_witness :
    [("a", JsNumber.fin 12), ("b", JsNumber.fin 47), ("c", JsNumber.fin 3)].length < 4 ∧
    (run (Round.init 4)
        ([("a", JsNumber.fin 12), ("b", JsNumber.fin 47), ("c", JsNumber.fin 3)].map
          (fun c => tagged c.1 c.2) ++ [Event.timeout])).outcome =
      some (Outcome.rejected quorumError) :=
  ⟨by decide, (quorum_failure_at_deadline 4
    [("a", JsNumber.fin 12), ("b", JsNumber.fin 47), ("c", JsNumber.fin 3)]
    [tagged "d" (JsNumber.fin 5), Event.timeout] (by decide)).2.1⟩

/-- The candidate on finite bounds is the rational formula. -/
theorem candidate_fin (r low high : ℚ) :
    candidate r (JsNumber.fin low) (JsNumber.fin high) = JsNumber.fin (sample r low high) := by
  simp [candidate, sample, JsNumber.add, JsNumber.sub, JsNumber.mul, JsNumber.floor]

/-- The candidate is never below the lower bound. -/
theorem sample_lower_bound (r low high : ℚ) (hr : 0 ≤ r) (hle : low ≤ high) :
    low ≤ sample r low high := by
  have h0 : (0 : ℤ) ≤ ⌊r * (high - low + 1)⌋ :=
    Int.floor_nonneg.mpr (mul_nonneg hr (by linarith))
  have h1 : (0 : ℚ) ≤ ((⌊r * (high - low + 1)⌋ : ℤ) : ℚ) := by exact_mod_cast h0
  unfold sample
  linarith

/-- On integer bounds the candidate is an integer of the inclusive range. -/
theorem sample_integer_bounds (r : ℚ) (low high : ℤ) (hr0 : 0 ≤ r) (hr1 : r < 1)
    (hle : low ≤ high) :
    (low : ℚ) ≤ sample r low high ∧ sample r low high ≤ high ∧
      ∃ k : ℤ, sample r low high = k := by
  have hle' : (low : ℚ) ≤ high := by exact_mod_cast hle
  refine ⟨sample_lower_bound r low high hr0 hle', ?_, ⟨⌊r * ((high : ℚ) - low + 1)⌋ + low, ?_⟩⟩
  · have hlt : r * ((high : ℚ) - low + 1) < ((high - low + 1 : ℤ) : ℚ) := by
      push_cast
      have hpos : (0 : ℚ) < (high : ℚ) - low + 1 := by linarith
      nlinarith
    have hfl : ⌊r * ((high : ℚ) - low + 1)⌋ < high - low + 1 := Int.floor_lt.mpr hlt
    have hfl2 : ⌊r * ((high : ℚ) - low + 1)⌋ ≤ high - low := by omega
    have hfl3 : ((⌊r * ((high : ℚ) - low + 1)⌋ : ℤ) : ℚ) ≤ ((high - low : ℤ) : ℚ) := by
      exact_mod_cast hfl2
    unfold sample
    push_cast at hfl3
    linarith
  · unfold sample
    push_cast
    ring

/-- C4, at the failing input: for the bounds 0 and 1/2 and the random value
9/10 the candidate is 1, above the upper bound 1/2. -/
theorem sample_fractional_bounds :
    (0 : ℚ) ≤ 1 / 2 ∧ (0 : ℚ) ≤ 9 / 10 ∧ (9 / 10 : ℚ) < 1 ∧
      candidate (9 / 10) (JsNumber.fin 0) (JsNumber.fin (1 / 2)) = JsNumber.fin 1 ∧
      sample (9 / 10) 0 (1 / 2) = 1 ∧ ¬ sample (9 / 10) 0 (1 / 2) ≤ 1 / 2 := by
  have hs : sample (9 / 10) 0 (1 / 2) = 1 := by
    have hf : ⌊(9 / 10 : ℚ) * (1 / 2 - 0 + 1)⌋ = 1 := by
      rw [Int.floor_eq_iff]; norm_num
    unfold sample
    rw [hf]; norm_num
  refine ⟨by norm_num, by norm_num, by norm_num, ?_, hs, ?_⟩
  · rw [candidate_fin, hs]
  · rw [hs]; norm_num

theorem isMessage_of_isTagged_or_isUntagged (e : Event)
    (h : e.isTagged = true ∨ e.isUntagged = true) : e.isMessage = true := by
  cases e with
  | message node msg => rfl
  | timeout => simp [Event.isTagged, Event.isUntagged, Event.contribution] at h

theorem contributions_length (es : List Event) :
    (contributions es).length = es.countP Event.isTagged := by
  induction es with
  | nil => rfl
  | cons e es ih =>
    cases h : e.contribution with
    | none =>
      have ht : e.isTagged = false := by simp [Event.isTagged, h]
      simp only [contributions, List.filterMap_cons, h, List.countP_cons, ht]
      simpa [contributions] using ih
    | some v =>
      have ht : e.isTagged = true := by simp [Event.isTagged, h]
      simp only [contributions, List.filterMap_cons, h, List.countP_cons, ht, List.length_cons]
      simpa [contributions] using ih

/-- A payload that parses to a value other than `null` and is not tagged is
dropped: no error, no change of state, provided the buffer length differs
from the roster size or the round is completed. -/
theorem onMessage_untagged (s : Round) (node : String) (msg : Parsed)
    (hu : (Event.message node msg).isUntagged = true)
    (hs : s.completed = true ∨ s.receivedNos.length ≠ s.unlSize) :
    onMessage s node msg = Except.ok s := by
  cases hcc : s.completed with
  | true => exact onMessage_completed s node msg hcc
  | false =>
    have hne : s.receivedNos.length ≠ s.unlSize := by
      rcases hs with h | h
      · rw [hcc] at h; cases h
      · exact h
    cases msg with
    | syntaxError => simp [Event.isUntagged] at hu
    | null => simp [Event.isUntagged] at hu
    | other => simp [onMessage, hcc, hne]
    | object key value =>
      have hk : key ≠ some "randomNumber" := by simpa [Event.isUntagged] using hu
      simp [onMessage, hcc, hk, hne]

/-- C5, counterexample: in the initial state of a round with roster 3, a
payload that is not valid JSON makes the message callback throw a
`SyntaxError`, and the payload `null` makes it throw a `TypeError`. -/
theorem malformed_payload_raises :
    onMessage (Round.init 3) "peer" Parsed.syntaxError = Except.error JsError.syntaxError ∧
      onMessage (Round.init 3) "peer" Parsed.null = Except.error JsError.typeError :=
  ⟨rfl, rfl⟩

/-- C5, amended: in every state that a round of roster size `n ≥ 1`
reaches, a payload that parses to a JSON value other than `null` and is not
tagged "randomNumber" (a boolean, number, string, array, or an object whose
`key` is not that string) raises no error and leaves the whole state
unchanged: the buffer and its count stay, the round is not ended.  And with
roster 3, every schedule of two tagged and five such untagged payloads, in
any interleaving, followed by the deadline ends with the promise rejected and
a buffer of two numbers. -/
theorem untagged_payload_dropped (n : Nat) (before : List Event) (node : String)
    (msg : Parsed) (es : List Event) (hn : 1 ≤ n)
    (hu : (Event.message node msg).isUntagged = true)
    (hes : ∀ e ∈ es, e.isTagged = true ∨ e.isUntagged = true)
    (h2 : es.countP Event.isTagged = 2) (h5 : es.countP Event.isUntagged = 5) :
    onMessage (run (Round.init n) before) node msg = Except.ok (run (Round.init n) before) ∧
      es.length = 7 ∧
      (run (Round.init 3) (es ++ [Event.timeout])).outcome =
        some (Outcome.rejected quorumError) ∧
      (run (Round.init 3) (es ++ [Event.timeout])).receivedNos.length = 2 := by
  have hlen : (contributions es).length = 2 := by rw [contributions_length, h2]
  have hrun : run (Round.init 3) es = (Round.init 3).pushAll (contributions es) :=
    run_messages_below es _ (fun e he => isMessage_of_isTagged_or_isUntagged e (hes e he)) rfl
      (by simp [Round.init, hlen])
  have hs : (run (Round.init n) before).completed = true ∨
      (run (Round.init n) before).receivedNos.length ≠ (run (Round.init n) before).unlSize := by
    cases hcc : (run (Round.init n) before).completed with
    | true => exact Or.inl rfl
    | false =>
      have hinv := inv_run (Round.init n) before (inv_init n)
      have hsize : (run (Round.init n) before).unlSize = n := run_unlSize _ _
      have hlt := (hinv.2.1 hcc).2.2 (by rw [hsize]; exact hn)
      exact Or.inr (by omega)
  refine ⟨onMessage_untagged _ node msg hu hs, ?_, ?_, ?_⟩
  · have hsum : es.countP Event.isTagged + es.countP Event.isUntagged = es.length := by
      clear h2 h5 hlen hrun
      induction es with
      | nil => rfl
      | cons e es ih =>
        have ih2 := ih (fun x hx => hes x (List.mem_cons_of_mem _ hx))
        have he := hes e (List.mem_cons_self _ _)
        have hex : ¬ (e.isTagged = true ∧ e.isUntagged = true) := by
          cases e with
          | timeout => simp [Event.isTagged, Event.contribution]
          | message n m =>
            cases m with
            | object key value =>
              by_cases hk : key = some "randomNumber" <;>
                simp [Event.isTagged, Event.isUntagged, Event.contribution, hk]
            | _ => simp [Event.isTagged, Event.contribution]
        simp only [List.countP_cons, List.length_cons]
        rcases he with h | h
        · have h' : e.isUntagged = false := by
            cases hh : e.isUntagged with
            | false => rfl
            | true => exact absurd ⟨h, hh⟩ hex
          simp only [h, h', if_true]
          simp
          omega
        · have h' : e.isTagged = false := by
            cases hh : e.isTagged with
            | false => rfl
            | true => exact absurd ⟨hh, h⟩ hex
          simp only [h, h', if_true]
          simp
          omega
    omega
  · rw [run_append, hrun]
    simp [run, step, onTimeout, Round.pushAll, Round.init, Round.reject, Round.outcome, hlen]
  · rw [run_append, hrun]
    simp [run, step, onTimeout, Round.pushAll, Round.init, Round.reject, hlen]

/-- C5, witness: in a round of roster 3 that holds one number, the payload
`true` is dropped; and the schedule of two tagged contributions interleaved
with five payloads that are not tagged is rejected at the deadline. -/
theorem untagged_payload_dropped_witness :
    onMessage (run (Round.init 3) [tagged "a" (JsNumber.fin 4)]) "b" Parsed.other =
        Except.ok (run (Round.init 3) [tagged "a" (JsNumber.fin 4)]) ∧
      (run (Round.init 3)
        ([Event.message "a" Parsed.other, tagged "a" (JsNumber.fin 8),
          Event.message "b" (Parsed.object none JsNumber.nan),
          Event.message "c" (Parsed.object (some "hello") (JsNumber.fin 1)),
          tagged "b" (JsNumber.fin 2), Event.message "c" Parsed.other,
          Event.message "c" (Parsed.object (some "random") (JsNumber.fin 9))] ++
          [Event.timeout])).outcome = some (Outcome.rejected quorumError) :=
  have h := untagged_payload_dropped 3 [tagged "a" (JsNumber.fin 4)] "b" Parsed.other
    [Event.message "a" Parsed.other, tagged "a" (JsNumber.fin 8),
      Event.message "b" (Parsed.object none JsNumber.nan),
      Event.message "c" (Parsed.object (some "hello") (JsNumber.fin 1)),
      tagged "b" (JsNumber.fin 2), Event.message "c" Parsed.other,
      Event.message "c" (Parsed.object (some "random") (JsNumber.fin 9))]
    (by decide) (by decide) (by decide) (by decide) (by decide)
  ⟨h.1, h.2.2.1⟩

/-- C6, counterexample: with a roster of 2, the single peer "p" delivering
two tagged payloads brings the buffer to length 1 and then 2, which completes
the round and resolves the promise, no other peer having contributed. -/
theorem single_peer_completes_round :
    (run (Round.init 2) [tagged "p" (JsNumber.fin 1)]).receivedNos.length = 1 ∧
      run (Round.init 2) [tagged "p" (JsNumber.fin 1), tagged "p" (JsNumber.fin 2)] =
        { unlSize := 2, completed := true, receivedNos := [JsNumber.fin 1, JsNumber.fin 2],
          timerPending := false, calls := [Outcome.resolved (JsNumber.fin 2)] } := by
  decide

/-- C6, amended: the count compared with the roster size is the length of the
buffer of accepted tagged payloads, whatever their origin.  In an uncompleted
round every tagged payload, of any peer, is pushed, so the count grows by
one; and `n` tagged payloads of one and the same peer `p` complete a round of
roster size `n`, resolving it with `getMax` of their values. -/
theorem quorum_counts_payloads_not_peers (n : Nat) (p : String) (vs : List JsNumber)
    (s : Round) (v : JsNumber) (hn : 1 ≤ n) (hlen : vs.length = n)
    (hc : s.completed = false) :
    (∃ s1, onMessage s p (Parsed.object (some "randomNumber") v) = Except.ok s1 ∧
        s1.receivedNos = s.receivedNos ++ [v] ∧
        s1.receivedNos.length = s.receivedNos.length + 1) ∧
      run (Round.init n) (vs.map (fun x => tagged p x)) =
        { unlSize := n, completed := true, receivedNos := vs, timerPending := false,
          calls := [Outcome.resolved (getMax vs)] } := by
  constructor
  · by_cases hq : s.receivedNos.length + 1 = s.unlSize
    · exact ⟨_, by simp only [onMessage, hc]; simp [hq]; rfl, by simp [Round.resolve], by
        simp [Round.resolve]⟩
    · exact ⟨_, by simp only [onMessage, hc]; simp [hq]; rfl, by simp, by simp⟩
  · have h := early_completion_getMax n (vs.map (fun x => (p, x))) [] hn (by simpa using hlen)
    have hmap : (vs.map (fun x => (p, x))).map (fun c => tagged c.1 c.2) =
        vs.map (fun x => tagged p x) := by
      simp [List.map_map, Function.comp_def]
    have hsnd : (vs.map (fun x => (p, x))).map Prod.snd = vs := by
      simp [List.map_map, Function.comp_def]
    rw [List.append_nil, hmap, hsnd] at h
    exact h

/-- C6, witness: three payloads of the peer "p" complete a round of roster 3. -/
theorem quorum_counts_payloads_not_peers_witness :
    1 ≤ 3 ∧ [JsNumber.fin 4, JsNumber.fin 6, JsNumber.fin 5].length = 3 ∧
      run (Round.init 3)
          ([JsNumber.fin 4, JsNumber.fin 6, JsNumber.fin 5].map (fun x => tagged "p" x)) =
        { unlSize := 3, completed := true,
          receivedNos := [JsNumber.fin 4, JsNumber.fin 6, JsNumber.fin 5],
          timerPending := false,
          calls := [Outcome.resolved (getMax [JsNumber.fin 4, JsNumber.fin 6, JsNumber.fin 5])] } :=
  ⟨by decide, by decide,
    (quorum_counts_payloads_not_peers 3 "p" [JsNumber.fin 4, JsNumber.fin 6, JsNumber.fin 5]
      (Round.init 3) (JsNumber.fin 4) (by decide) (by decide) rfl).2⟩

/-- The only reason with which the promise of a round is ever rejected is
the one of the deadline callback, and then the buffer is below the roster. -/
theorem rejected_step (s : Round) (e : Event) (hinv : Inv s)
    (hs : ∀ reason, s.outcome = some (Outcome.rejected reason) →
      reason = quorumError ∧ s.receivedNos.length < s.unlSize) :
    ∀ reason, (step s e).outcome = some (Outcome.rejected reason) →
      reason = quorumError ∧ (step s e).receivedNos.length < (step s e).unlSize := by
  cases hcc : s.completed with
  | true => rw [step_of_completed s e hcc (hinv.2.2 hcc).1]; exact hs
  | false =>
    obtain ⟨hp, hcalls, _⟩ := hinv.2.1 hcc
    cases e with
    | timeout =>
      by_cases hlt : s.receivedNos.length < s.unlSize
      · have hstep : step s Event.timeout = Round.reject (Round.finish s) quorumError := by
          simp [step, hp, onTimeout, hlt, Round.finish]
        rw [hstep]
        intro reason hr
        have hreason : quorumError = reason := by
          simpa [Round.reject, Round.finish, Round.outcome, hcalls] using hr
        exact ⟨hreason.symm, by simpa [Round.reject, Round.finish] using hlt⟩
      · intro reason hr
        simp [step, hp, onTimeout, hlt, Round.resolve, Round.outcome, hcalls] at hr
    | message node msg =>
      cases msg with
      | syntaxError => simpa [step, onMessage, hcc] using hs
      | null => simpa [step, onMessage, hcc] using hs
      | other =>
        by_cases hn : s.receivedNos.length = s.unlSize
        · intro reason hr
          simp [step, onMessage, hcc, hn, Round.resolve, Round.outcome, hcalls] at hr
        · simpa [step, onMessage, hcc, hn] using hs
      | object key value =>
        by_cases hk : key = some "randomNumber"
        · by_cases hn : s.receivedNos.length + 1 = s.unlSize
          · intro reason hr
            simp [step, onMessage, hcc, hk, hn, Round.resolve, Round.outcome, hcalls] at hr
          · intro reason hr
            simp [step, onMessage, hcc, hk, hn, Round.outcome, hcalls] at hr
        · by_cases hn : s.receivedNos.length = s.unlSize
          · intro reason hr
            simp [step, onMessage, hcc, hk, hn, Round.resolve, Round.outcome, hcalls] at hr
          · simpa [step, onMessage, hcc, hk, hn] using hs

theorem rejected_run (es : List Event) (s : Round) (hinv : Inv s)
    (hs : ∀ reason, s.outcome = some (Outcome.rejected reason) →
      reason = quorumError ∧ s.receivedNos.length < s.unlSize) :
    ∀ reason, (run s es).outcome = some (Outcome.rejected reason) →
      reason = quorumError ∧ (run s es).receivedNos.length < (run s es).unlSize := by
  induction es generalizing s with
  | nil => exact hs
  | cons e es ih =>
    rw [run_cons]
    exact ih (step s e) (inv_step s e hinv) (rejected_step s e hinv hs)

/-- C7, counterexample: the call `generateRndNo(5, 1)`, whose upper bound is
below the lower one, samples the candidate 3, sends the text with the value 3
on the peer channel and returns the value of the round; and the call
`generateRndNo(NaN, 1)` samples `NaN` and sends the text with the value
`null`, returning the value of the round as well.  Neither reports a failure. -/
theorem invalid_bounds_are_broadcast :
    (generateRndNo
        { unlSize := 1, roundtime := 2000, random := 1 / 2,
          events := [tagged "a" (JsNumber.fin 3)], writeOk := true }
        (JsNumber.fin 5) (JsNumber.fin 1)).sent =
        [{ key := "randomNumber", value := JsonNumber.number 3 }] ∧
      (generateRndNo
        { unlSize := 1, roundtime := 2000, random := 1 / 2,
          events := [tagged "a" (JsNumber.fin 3)], writeOk := true }
        (JsNumber.fin 5) (JsNumber.fin 1)).result = some (Except.ok (JsNumber.fin 3)) ∧
      (generateRndNo
        { unlSize := 1, roundtime := 2000, random := 1 / 2,
          events := [tagged "a" (JsNumber.fin 3)], writeOk := true }
        JsNumber.nan (JsNumber.fin 1)).sent =
        [{ key := "randomNumber", value := JsonNumber.null }] ∧
      (generateRndNo
        { unlSize := 1, roundtime := 2000, random := 1 / 2,
          events := [tagged "a" (JsNumber.fin 3)], writeOk := true }
        JsNumber.nan (JsNumber.fin 1)).result = some (Except.ok (JsNumber.fin 3)) := by
  have hf : ⌊(1 / 2 : ℚ) * (1 - 5 + 1)⌋ = -2 := by
    rw [Int.floor_eq_iff]; norm_num
  have hs : sample (1 / 2) 5 1 = 3 := by
    unfold sample
    rw [hf]; norm_num
  have hrun : (run (Round.init 1) [tagged "a" (JsNumber.fin 3)]).outcome =
      some (Outcome.resolved (JsNumber.fin 3)) := by decide
  refine ⟨?_, ?_, ?_, ?_⟩
  · simp only [generateRndNo, candidate_fin, hs, stringify, stringifyNumber]
  · simp only [generateRndNo, awaitRound, hrun]
  · rfl
  · simp only [generateRndNo, awaitRound, hrun]

/-- C7, amended: `generateRndNo` has no check of its bounds.  For every host
and all bounds, `max < min` and `NaN` included, it calls `sendViaNPL` exactly
once, with a text tagged "randomNumber": on finite bounds the text carries
the number `floor(random * (max - min + 1)) + min`, whatever their order, and
as soon as a bound is `NaN` the candidate is `NaN` and the text carries
`null`.  No precondition failure is reported: the call ends as its round
ends, and the only error it can throw is the rejection of the deadline
callback, raised with fewer numbers in the buffer than the roster size. -/
theorem generateRndNo_never_validates (h : Host) (min max : JsNumber) (low high : ℚ) :
    ((generateRndNo h min max).sent.length = 1 ∧
        ∀ m ∈ (generateRndNo h min max).sent, m.key = "randomNumber") ∧
      (generateRndNo h (JsNumber.fin low) (JsNumber.fin high)).sent =
        [{ key := "randomNumber",
           value := JsonNumber.number ((⌊h.random * (high - low + 1)⌋ : ℤ) + low) }] ∧
      (generateRndNo h JsNumber.nan max).sent =
        [{ key := "randomNumber", value := JsonNumber.null }] ∧
      (generateRndNo h min JsNumber.nan).sent =
        [{ key := "randomNumber", value := JsonNumber.null }] ∧
      (generateRndNo h min max).result = awaitRound (run (Round.init h.unlSize) h.events) ∧
      ∀ err, (generateRndNo h min max).result = some (Except.error err) →
        err = JsError.rejection quorumError ∧
          (run (Round.init h.unlSize) h.events).receivedNos.length < h.unlSize := by
  refine ⟨⟨rfl, ?_⟩, ?_, ?_, ?_, rfl, ?_⟩
  · intro m hm
    simp only [generateRndNo, List.mem_singleton] at hm
    rw [hm]; rfl
  · simp only [generateRndNo, candidate_fin, sample, stringify, stringifyNumber]
  · have hc : candidate h.random JsNumber.nan max = JsNumber.nan := by cases max <;> rfl
    simp only [generateRndNo, hc, stringify, stringifyNumber]
  · have hc : candidate h.random min JsNumber.nan = JsNumber.nan := by cases min <;> rfl
    simp only [generateRndNo, hc, stringify, stringifyNumber]
  · intro err herr
    have hrej := rejected_run h.events (Round.init h.unlSize) (inv_init h.unlSize)
      (by intro reason hr; simp [Round.init, Round.outcome] at hr)
    have hsize : (run (Round.init h.unlSize) h.events).unlSize = h.unlSize := run_unlSize _ _
    simp only [generateRndNo, awaitRound] at herr
    cases hout : (run (Round.init h.unlSize) h.events).outcome with
    | none => rw [hout] at herr; simp at herr
    | some o =>
      cases o with
      | resolved v => rw [hout] at herr; simp at herr
      | rejected reason =>
        rw [hout] at herr
        simp only [Option.some.injEq, Except.error.injEq] at herr
        obtain ⟨hr, hlt⟩ := hrej reason hout
        rw [hsize] at hlt
        exact ⟨by rw [← herr, hr], hlt⟩

/-- C7, witness: in the scenario of a failed quorum the call
`generateRndNo(5, 1)` still sends its text, with the value 3, and the error
it throws is the rejection of the deadline callback. -/
theorem generateRndNo_never_validates_witness :
    (generateRndNo scenarioHost (JsNumber.fin 5) (JsNumber.fin 1)).sent =
        [{ key := "randomNumber",
           value := JsonNumber.number ((⌊scenarioHost.random * (1 - 5 + 1)⌋ : ℤ) + 5) }] ∧
      (generateRndNo scenarioHost JsNumber.nan (JsNumber.fin 1)).sent =
        [{ key := "randomNumber", value := JsonNumber.null }] ∧
      (run (Round.init scenarioHost.unlSize) scenarioHost.events).receivedNos.length <
        scenarioHost.unlSize :=
  have h := generateRndNo_never_validates scenarioHost (JsNumber.fin 5) (JsNumber.fin 1) 5 1
  have h2 := generateRndNo_never_validates scenarioHost JsNumber.nan (JsNumber.fin 1) 5 1
  have hres : (generateRndNo scenarioHost (JsNumber.fin 5) (JsNumber.fin 1)).result =
      some (Except.error (JsError.rejection quorumError)) := by
    have hrun : (run (Round.init 4) scenarioHost.events).outcome =
        some (Outcome.rejected quorumError) := by decide
    simp only [generateRndNo, awaitRound]
    rw [show scenarioHost.unlSize = 4 from rfl, hrun]
  ⟨h.2.1, h2.2.2.1, (h.2.2.2.2.2 _ hres).2⟩

/-- C8: after every schedule of deliveries and deadline firings, from the
start of a round of any roster size, `resolve` and `reject` have been called
at most once in total, and exactly once precisely when the round is
completed; once it is completed, every further schedule, every further single
callback and every further delivery leaves the whole state (flag, buffer,
outcome) unchanged, the message callback returning without an error. -/
theorem single_terminal_outcome (n : Nat) (es later : List Event) :
    (run (Round.init n) es).calls.length ≤ 1 ∧
      ((run (Round.init n) es).completed = true ↔ (run (Round.init n) es).calls.length = 1) ∧
      ((run (Round.init n) es).completed = true →
        run (Round.init n) (es ++ later) = run (Round.init n) es ∧
        (∀ e, step (run (Round.init n) es) e = run (Round.init n) es) ∧
        ∀ node msg,
          onMessage (run (Round.init n) es) node msg = Except.ok (run (Round.init n) es)) := by
  obtain ⟨_, h2, h3⟩ := inv_run (Round.init n) es (inv_init n)
  cases hcc : (run (Round.init n) es).completed with
  | false =>
    obtain ⟨_, hcalls, _⟩ := h2 hcc
    simp [hcalls]
  | true =>
    obtain ⟨hp, hcalls⟩ := h3 hcc
    refine ⟨by omega, by simp [hcalls], fun _ => ⟨?_, ?_, ?_⟩⟩
    · rw [run_append]; exact run_of_completed _ _ hcc hp
    · intro e; exact step_of_completed _ _ hcc hp
    · intro node msg; exact onMessage_completed _ _ _ hcc

/-- C8, witness: a round of roster 2 completed by two deliveries ignores the
deadline and a late delivery. -/
theorem single_terminal_outcome_witness :
    (run (Round.init 2) [tagged "a" (JsNumber.fin 5), tagged "b" (JsNumber.fin 9)]).completed =
        true ∧
      run (Round.init 2) ([tagged "a" (JsNumber.fin 5), tagged "b" (JsNumber.fin 9)] ++
          [Event.timeout, tagged "c" (JsNumber.fin 11)]) =
        run (Round.init 2) [tagged "a" (JsNumber.fin 5), tagged "b" (JsNumber.fin 9)] :=
  ⟨by decide,
    ((single_terminal_outcome 2 [tagged "a" (JsNumber.fin 5), tagged "b" (JsNumber.fin 9)]
      [Event.timeout, tagged "c" (JsNumber.fin 11)]).2.2 (by decide)).1⟩

/-- C9, counterexample: in the scenario of roster 4 with the contributions
12, 47, 3 and then the deadline, `generateRndNo(1, 100)` does not return a
failure value: it throws the rejection reason; `compute` on `RAN 1 100` throws
the same error instead of returning an object, and `handleCommand` throws it
without sending any output. -/
theorem quorum_failure_throws :
    (generateRndNo scenarioHost (JsNumber.fin 1) (JsNumber.fin 100)).result =
        some (Except.error (JsError.rejection quorumError)) ∧
      compute scenarioHost Banner.empty (ranCommand (JsNumber.fin 1) (JsNumber.fin 100)).expression =
        some (Except.error (JsError.rejection quorumError)) ∧
      handleCommand scenarioHost Banner.empty none
          (ranCommand (JsNumber.fin 1) (JsNumber.fin 100)) false =
        some (Except.error (JsError.rejection quorumError)) := by
  have hrun : (run (Round.init 4) scenarioHost.events).outcome =
      some (Outcome.rejected quorumError) := by decide
  have hgen : (generateRndNo scenarioHost (JsNumber.fin 1) (JsNumber.fin 100)).result =
      some (Except.error (JsError.rejection quorumError)) := by
    simp only [generateRndNo, awaitRound]
    rw [show scenarioHost.unlSize = 4 from rfl, hrun]
  have hcomp : compute scenarioHost Banner.empty
      (ranCommand (JsNumber.fin 1) (JsNumber.fin 100)).expression =
      some (Except.error (JsError.rejection quorumError)) := by
    simp [compute, ranCommand, hgen]
  refine ⟨hgen, hcomp, ?_⟩
  simp only [handleCommand, hcomp]
  simp [ranCommand]

/-- C9, amended: when the promise of the round is rejected, which is what the
deadline callback does on a missing quorum, `generateRndNo` throws the
rejection reason to its caller; `compute` with the operator `RAN` does not
catch it and throws it too, returning no object; and `handleCommand`, outside
read-only mode, throws it as well and sends no output to the user. -/
theorem quorum_failure_propagates (h : Host) (banner : Banner) (file : Option Banner)
    (min max : JsNumber) (reason : String)
    (hq : (run (Round.init h.unlSize) h.events).outcome = some (Outcome.rejected reason)) :
    (generateRndNo h min max).result = some (Except.error (JsError.rejection reason)) ∧
      compute h banner (ranCommand min max).expression =
        some (Except.error (JsError.rejection reason)) ∧
      handleCommand h banner file (ranCommand min max) false =
        some (Except.error (JsError.rejection reason)) := by
  have hgen : (generateRndNo h min max).result =
      some (Except.error (JsError.rejection reason)) := by
    simp only [generateRndNo, awaitRound, hq]
  have hcomp : compute h banner (ranCommand min max).expression =
      some (Except.error (JsError.rejection reason)) := by
    simp [compute, ranCommand, hgen]
  refine ⟨hgen, hcomp, ?_⟩
  simp only [handleCommand, hcomp]
  simp [ranCommand]

/-- C9, witness: roster 2, one contribution, then the deadline. -/
theorem quorum_failure_propagates_witness :
    (run (Round.init 2) [tagged "a" (JsNumber.fin 7), Event.timeout]).outcome =
        some (Outcome.rejected quorumError) ∧
      handleCommand
          { unlSize := 2, roundtime := 1000, random := 0,
            events := [tagged "a" (JsNumber.fin 7), Event.timeout], writeOk := true }
          (Banner.random (JsNumber.fin 7)) none
          (ranCommand (JsNumber.fin 0) (JsNumber.fin 9)) false =
        some (Except.error (JsError.rejection quorumError)) :=
  ⟨by decide,
    (quorum_failure_propagates
      { unlSize := 2, roundtime := 1000, random := 0,
        events := [tagged "a" (JsNumber.fin 7), Event.timeout], writeOk := true }
      (Banner.random (JsNumber.fin 7)) none (JsNumber.fin 0) (JsNumber.fin 9) quorumError
      (by decide)).2.2⟩

/-- C10: for a roster of `n ≥ 1`, after every schedule of deliveries and
deadline firings the buffer holds at most `n` numbers, and fewer than `n`
while the round is not completed; in such an uncompleted state the timer is
pending and its firing takes the failure branch, rejecting the promise. -/
theorem count_bound_invariant (n : Nat) (es : List Event) (hn : 1 ≤ n) :
    (run (Round.init n) es).receivedNos.length ≤ n ∧
      ((run (Round.init n) es).completed = false →
        (run (Round.init n) es).receivedNos.length < n ∧
        (run (Round.init n) es).timerPending = true ∧
        step (run (Round.init n) es) Event.timeout =
          Round.reject (Round.finish (run (Round.init n) es)) quorumError ∧
        (run (Round.init n) (es ++ [Event.timeout])).outcome =
          some (Outcome.rejected quorumError)) := by
  obtain ⟨h1, h2, _⟩ := inv_run (Round.init n) es (inv_init n)
  have hsize : (run (Round.init n) es).unlSize = n := run_unlSize _ _
  rw [hsize] at h1 h2
  refine ⟨h1 hn, fun hcc => ?_⟩
  obtain ⟨hp, hcalls, hlt⟩ := h2 hcc
  have hstep : step (run (Round.init n) es) Event.timeout =
      Round.reject (Round.finish (run (Round.init n) es)) quorumError := by
    simp [step, hp, onTimeout, hsize, hlt hn, Round.finish]
  refine ⟨hlt hn, hp, hstep, ?_⟩
  rw [run_append]
  show (step (run (Round.init n) es) Event.timeout).outcome = _
  rw [hstep]
  simp [Round.reject, Round.finish, Round.outcome, hcalls]

/-- C10, witness: roster 4 after three deliveries. -/
theorem count_bound_invariant_witness :
    1 ≤ 4 ∧
      (run (Round.init 4) [tagged "a" (JsNumber.fin 12), Event.message "b" Parsed.syntaxError,
        tagged "b" (JsNumber.fin 47), tagged "c" (JsNumber.fin 3)]).receivedNos.length ≤ 4 ∧
      (run (Round.init 4) ([tagged "a" (JsNumber.fin 12), Event.message "b" Parsed.syntaxError,
        tagged "b" (JsNumber.fin 47), tagged "c" (JsNumber.fin 3)] ++ [Event.timeout])).outcome =
        some (Outcome.rejected quorumError) :=
  have h := count_bound_invariant 4 [tagged "a" (JsNumber.fin 12),
    Event.message "b" Parsed.syntaxError, tagged "b" (JsNumber.fin 47),
    tagged "c" (JsNumber.fin 3)] (by decide)
  ⟨by decide, h.1, (h.2 (by decide)).2.2.2⟩

/-- With an empty roster the deadline callback takes its other branch: the
promise is resolved with `getMax` of the empty buffer, 0. -/
theorem deadline_resolves_empty_roster :
    (run (Round.init 0) [Event.timeout]).outcome = some (Outcome.resolved (JsNumber.fin 0)) := by
  decide

end Calc
